import Mathlib

/-!
# Thread-CPU timer macros of `perf.h`

`perf.h` defines two statement macros over a caller-owned `struct timespec`:

* `TIMER_START(ts)`: `clock_gettime(CLOCK_THREAD_CPUTIME_ID, &(ts))`;
* `TIMER_SET(ts, result)`: copy `ts` to `__prev`, read the clock into `ts`,
  assign `(ts.tv_sec - __prev.tv_sec) * 1000000000 + (ts.tv_nsec - __prev.tv_nsec)`
  to `result`.

The macros are embedded as state transformers over an environment that holds
the two lvalues the macros touch (`ts`, `result`), the calling thread, and the
clocks of the system. The clocks are the external collaborator: for every
clock identifier and every thread, the sequence of readings that the
successive `clock_gettime` calls of that thread return. `clock_gettime` is
taken to succeed (the header ignores its return value).

`struct timespec`, `time_t`, `long` and the clock identifiers come from
`<time.h>`, not from this header. `tv_sec` (`time_t`), `tv_nsec` (`long`) and
`result` are taken 64-bit two's-complement, as on LP64 platforms: every
subtraction, the multiplication and the addition of `TIMER_SET` is reduced
modulo `2 ^ 64` into `[-2^63, 2^63)`.
-/

namespace Perf

/-- The `struct timespec` of `<time.h>`: seconds and nanoseconds. -/
structure timespec where
  tv_sec : Int
  tv_nsec : Int
  deriving DecidableEq, Repr

/-- Modelled from the spec: the clock identifiers of `<time.h>`, which the
header uses but does not declare. The wall clock, the monotonic clock, the
process-global CPU-time clock and the calling thread's CPU-time clock. -/
inductive clockid_t where
  | CLOCK_REALTIME
  | CLOCK_MONOTONIC
  | CLOCK_PROCESS_CPUTIME_ID
  | CLOCK_THREAD_CPUTIME_ID
  deriving DecidableEq, Repr

/-- The clocks of the system: `clocks id t i` is the reading that clock `id`
returns to thread `t` at that thread's call number `i`. -/
abbrev Clocks := clockid_t → Nat → Nat → timespec

/-- Environment of a macro expansion: the slot `ts`, the lvalue `result` (an
object distinct from `ts`), the calling thread, the clocks of the system and
the number of `clock_gettime` calls the thread has made. -/
structure Env where
  ts : timespec
  result : Int
  thread : Nat
  clocks : Clocks
  calls : Nat

/-- The call `clock_gettime(clk_id, &(ts))` made by the thread of `e`: stores
the current reading of clock `clk_id` for that thread into `ts`. -/
def clock_gettime (clk_id : clockid_t) (e : Env) : Env :=
  { e with ts := e.clocks clk_id e.thread e.calls, calls := e.calls + 1 }

/-- The macro `TIMER_START(ts)`. -/
def TIMER_START (e : Env) : Env :=
  clock_gettime clockid_t.CLOCK_THREAD_CPUTIME_ID e

/-- Reduction of an integer to the 64-bit two's-complement range
`[-2^63, 2^63)`. -/
def wrap64 (x : Int) : Int :=
  (x + 2 ^ 63) % 2 ^ 64 - 2 ^ 63

/-- Representable as a 64-bit signed integer. -/
def inRange64 (x : Int) : Prop :=
  -(2 ^ 63) ≤ x ∧ x < 2 ^ 63

instance (x : Int) : Decidable (inRange64 x) :=
  inferInstanceAs (Decidable (-(2 ^ 63) ≤ x ∧ x < 2 ^ 63))

/-- The macro `TIMER_SET(ts, result)`, with `tv_sec`, `tv_nsec` and `result`
64-bit signed: each subtraction, the multiplication and the addition are
reduced modulo `2 ^ 64`. -/
def TIMER_SET (e : Env) : Env :=
  let __prev := e.ts
  let e1 := clock_gettime clockid_t.CLOCK_THREAD_CPUTIME_ID e
  { e1 with
    result := wrap64 (wrap64 (wrap64 (e1.ts.tv_sec - __prev.tv_sec) * 1000000000)
                + wrap64 (e1.ts.tv_nsec - __prev.tv_nsec)) }

/-- `n` consecutive expansions of `TIMER_SET(ts, result)`; returns the final
environment and the values assigned to `result`, in order. -/
def measures : Nat → Env → Env × List Int
  | 0, e => (e, [])
  | n + 1, e =>
    let e1 := TIMER_SET e
    let r := measures n e1
    (r.1, e1.result :: r.2)

/-! ## Specification-side definitions -/

/-- Elapsed nanoseconds as the specification writes it, over the integers:
`(new.seconds - old.seconds) * 1_000_000_000 + (new.nanoseconds - old.nanoseconds)`. -/
def spec_elapsed (old new : timespec) : Int :=
  (new.tv_sec - old.tv_sec) * 1000000000 + (new.tv_nsec - old.tv_nsec)

/-- The fixed-point nanosecond count of a timestamp. -/
def ns (t : timespec) : Int :=
  t.tv_sec * 1000000000 + t.tv_nsec

/-- A timestamp is normalised when `0 ≤ tv_nsec < 1000000000`. -/
def normalised (t : timespec) : Prop :=
  0 ≤ t.tv_nsec ∧ t.tv_nsec < 1000000000

instance (t : timespec) : Decidable (normalised t) :=
  inferInstanceAs (Decidable (0 ≤ t.tv_nsec ∧ t.tv_nsec < 1000000000))

/-- Strict lexicographic order on `(seconds, nanoseconds)`. -/
def earlier (a b : timespec) : Prop :=
  a.tv_sec < b.tv_sec ∨ (a.tv_sec = b.tv_sec ∧ a.tv_nsec < b.tv_nsec)

instance (a b : timespec) : Decidable (earlier a b) :=
  inferInstanceAs
    (Decidable (a.tv_sec < b.tv_sec ∨ (a.tv_sec = b.tv_sec ∧ a.tv_nsec < b.tv_nsec)))

/-- The reading of the CPU-time clock of thread `t` at its call number `i`. -/
def cputime (clocks : Clocks) (t i : Nat) : timespec :=
  clocks clockid_t.CLOCK_THREAD_CPUTIME_ID t i

/-- Clocks that return the readings of `rs` in order (and `d` afterwards),
whatever the clock identifier and the thread. -/
def clocksOf (rs : List timespec) (d : timespec) : Clocks :=
  fun _ _ i => rs.getD i d

theorem TIMER_START_ts (e : Env) :
    (TIMER_START e).ts = cputime e.clocks e.thread e.calls := rfl

theorem TIMER_START_calls (e : Env) : (TIMER_START e).calls = e.calls + 1 := rfl

theorem TIMER_START_clocks (e : Env) : (TIMER_START e).clocks = e.clocks := rfl

theorem TIMER_START_thread (e : Env) : (TIMER_START e).thread = e.thread := rfl

theorem TIMER_START_result (e : Env) : (TIMER_START e).result = e.result := rfl

theorem TIMER_SET_ts (e : Env) :
    (TIMER_SET e).ts = cputime e.clocks e.thread e.calls := rfl

theorem TIMER_SET_calls (e : Env) : (TIMER_SET e).calls = e.calls + 1 := rfl

theorem TIMER_SET_clocks (e : Env) : (TIMER_SET e).clocks = e.clocks := rfl

theorem TIMER_SET_thread (e : Env) : (TIMER_SET e).thread = e.thread := rfl

/-- Reduction modulo `2 ^ 64` leaves a representable value unchanged. -/
theorem wrap64_of_inRange64 (x : Int) (h : inRange64 x) : wrap64 x = x := by
  unfold inRange64 at h
  unfold wrap64
  have h1 : (x + 2 ^ 63) % 2 ^ 64 = x + 2 ^ 63 :=
    Int.emod_eq_of_lt (by omega) (by omega)
  rw [h1]
  ring

/-- The result of reduction modulo `2 ^ 64` is always representable. -/
theorem inRange64_wrap64 (x : Int) : inRange64 (wrap64 x) := by
  unfold inRange64 wrap64
  have h1 : 0 ≤ (x + 2 ^ 63) % 2 ^ 64 := Int.emod_nonneg _ (by norm_num)
  have h2 : (x + 2 ^ 63) % 2 ^ 64 < 2 ^ 64 := Int.emod_lt_of_pos _ (by norm_num)
  constructor <;> omega

/-- Reduction modulo `2 ^ 64` does not change the residue. -/
theorem wrap64_emod (x : Int) : wrap64 x % 2 ^ 64 = x % 2 ^ 64 := by
  unfold wrap64
  omega

/-- Integers with the same residue modulo `2 ^ 64` have the same reduction. -/
theorem wrap64_congr (x y : Int) (h : x % 2 ^ 64 = y % 2 ^ 64) : wrap64 x = wrap64 y := by
  unfold wrap64
  omega

/-- A reduced value equals the exact one only if the exact one is
representable. -/
theorem inRange64_of_wrap64_eq (x : Int) (h : wrap64 x = x) : inRange64 x := by
  rw [← h]
  exact inRange64_wrap64 x

/-- The reductions after each operation of `TIMER_SET` amount to one
reduction of the exact value. -/
theorem wrap64_nested (a b : Int) :
    wrap64 (wrap64 (wrap64 a * 1000000000) + wrap64 b) = wrap64 (a * 1000000000 + b) := by
  apply wrap64_congr
  have h1 := wrap64_emod a
  have h2 := wrap64_emod (wrap64 a * 1000000000)
  have h3 := wrap64_emod b
  omega

/-- The value `TIMER_SET` assigns is the exact elapsed count between the old
slot and the thread's CPU-time reading, reduced modulo `2 ^ 64`. -/
theorem TIMER_SET_result (e : Env) :
    (TIMER_SET e).result = wrap64 (spec_elapsed e.ts (cputime e.clocks e.thread e.calls)) := by
  show wrap64 (wrap64 (wrap64 ((cputime e.clocks e.thread e.calls).tv_sec - e.ts.tv_sec)
      * 1000000000)
    + wrap64 ((cputime e.clocks e.thread e.calls).tv_nsec - e.ts.tv_nsec)) = _
  rw [wrap64_nested]
  rfl

/-- When the exact elapsed count is representable, `TIMER_SET` assigns it. -/
theorem TIMER_SET_result_exact (e : Env)
    (h : inRange64 (spec_elapsed e.ts (cputime e.clocks e.thread e.calls))) :
    (TIMER_SET e).result = spec_elapsed e.ts (cputime e.clocks e.thread e.calls) := by
  rw [TIMER_SET_result, wrap64_of_inRange64 _ h]

/-- The elapsed value is the difference of the nanosecond counts. -/
theorem spec_elapsed_eq_ns (old new : timespec) :
    spec_elapsed old new = ns new - ns old := by
  unfold spec_elapsed ns
  ring

/-- Elapsed counts of adjacent intervals add up. -/
theorem spec_elapsed_add (a b c : timespec) :
    spec_elapsed a b + spec_elapsed b c = spec_elapsed a c := by
  unfold spec_elapsed
  ring

/-- On normalised timestamps the nanosecond count is strictly monotone for the
lexicographic order. -/
theorem earlier_iff_ns_lt (a b : timespec) (ha : normalised a) (hb : normalised b) :
    earlier a b ↔ ns a < ns b := by
  unfold normalised at ha hb
  unfold earlier ns
  constructor
  · rintro (h | ⟨h1, h2⟩) <;> omega
  · intro h
    by_cases hs : a.tv_sec < b.tv_sec
    · exact Or.inl hs
    · exact Or.inr ⟨by omega, by omega⟩

/-- For normalised timestamps whose seconds differ by at most `9223372035`,
the exact elapsed count is representable. -/
theorem inRange64_spec_elapsed (old new : timespec) (hold : normalised old)
    (hnew : normalised new) (hd : |new.tv_sec - old.tv_sec| ≤ 9223372035) :
    inRange64 (spec_elapsed old new) := by
  unfold normalised at hold hnew
  rw [abs_le] at hd
  unfold inRange64 spec_elapsed
  constructor <;> omega

/-- Clocks, thread, call count and slot after `n` chained measurements. -/
theorem measures_spec (n : Nat) (e : Env) :
    (measures n e).1.clocks = e.clocks ∧
    (measures n e).1.thread = e.thread ∧
    (measures n e).1.calls = e.calls + n ∧
    (measures n e).2.length = n ∧
    (measures (n + 1) e).1.ts = cputime e.clocks e.thread (e.calls + n) := by
  induction n generalizing e with
  | zero => exact ⟨rfl, rfl, rfl, rfl, rfl⟩
  | succ n ih =>
    obtain ⟨h1, h2, h3, h4, h5⟩ := ih (TIMER_SET e)
    refine ⟨?_, ?_, ?_, ?_, ?_⟩
    · simpa [measures] using h1
    · simpa [measures] using h2
    · simp only [measures, h3, TIMER_SET_calls]
      omega
    · simp [measures, h4]
    · have h6 : (measures (n + 1 + 1) e).1.ts = (measures (n + 1) (TIMER_SET e)).1.ts := rfl
      rw [h6, h5, TIMER_SET_clocks, TIMER_SET_calls, TIMER_SET_thread]
      congr 1
      omega

/-- Modulo `2 ^ 64`, the values of `n` chained measurements add up to the
elapsed count between the initial and the final slot. -/
theorem measures_sum_wrap (n : Nat) (e : Env) :
    wrap64 (measures n e).2.sum = wrap64 (spec_elapsed e.ts (measures n e).1.ts) := by
  induction n generalizing e with
  | zero =>
    simp [measures, spec_elapsed]
  | succ n ih =>
    have h6 : (measures (n + 1) e).1.ts = (measures n (TIMER_SET e)).1.ts := rfl
    have h7 : (measures (n + 1) e).2 = (TIMER_SET e).result :: (measures n (TIMER_SET e)).2 := rfl
    rw [h6, h7, List.sum_cons]
    apply wrap64_congr
    have h8 := ih (TIMER_SET e)
    have h9 := wrap64_emod (measures n (TIMER_SET e)).2.sum
    have h10 := wrap64_emod (spec_elapsed (TIMER_SET e).ts (measures n (TIMER_SET e)).1.ts)
    rw [h8] at h9
    have h11 := wrap64_emod (spec_elapsed e.ts (cputime e.clocks e.thread e.calls))
    rw [← TIMER_SET_result] at h11
    have h12 := spec_elapsed_add e.ts (TIMER_SET e).ts (measures n (TIMER_SET e)).1.ts
    rw [TIMER_SET_ts] at h12 h10 h9
    omega

/-- When every measured interval is representable, the values of `n` chained
measurements add up to the elapsed count between the initial and the final
slot. -/
theorem measures_sum_exact (n : Nat) (e : Env)
    (h0 : n ≠ 0 → inRange64 (spec_elapsed e.ts (cputime e.clocks e.thread e.calls)))
    (hs : ∀ i, i + 1 < n →
      inRange64 (spec_elapsed (cputime e.clocks e.thread (e.calls + i))
        (cputime e.clocks e.thread (e.calls + i + 1)))) :
    (measures n e).2.sum = spec_elapsed e.ts (measures n e).1.ts := by
  induction n generalizing e with
  | zero =>
    simp [measures, spec_elapsed]
  | succ n ih =>
    have h6 : (measures (n + 1) e).1.ts = (measures n (TIMER_SET e)).1.ts := rfl
    have h7 : (measures (n + 1) e).2 = (TIMER_SET e).result :: (measures n (TIMER_SET e)).2 := rfl
    have h8 : (measures n (TIMER_SET e)).2.sum
        = spec_elapsed (TIMER_SET e).ts (measures n (TIMER_SET e)).1.ts := by
      apply ih
      · intro hn
        rw [TIMER_SET_ts, TIMER_SET_clocks, TIMER_SET_thread, TIMER_SET_calls]
        have h := hs 0 (by omega)
        simpa using h
      · intro i hi
        rw [TIMER_SET_clocks, TIMER_SET_thread, TIMER_SET_calls]
        have h := hs (i + 1) (by omega)
        have e1 : e.calls + (i + 1) = e.calls + 1 + i := by omega
        rw [e1] at h
        exact h
    rw [h6, h7, List.sum_cons, h8, TIMER_SET_result_exact e (h0 (by omega)), TIMER_SET_ts]
    exact spec_elapsed_add _ _ _

/-- After `TIMER_START`, `TIMER_SET` assigns the reduced elapsed count between
the thread's two consecutive CPU-time readings. -/
theorem mark_measure_result (e : Env) :
    (TIMER_SET (TIMER_START e)).result
      = wrap64 (spec_elapsed (cputime e.clocks e.thread e.calls)
          (cputime e.clocks e.thread (e.calls + 1))) := by
  rw [TIMER_SET_result, TIMER_START_ts, TIMER_START_clocks, TIMER_START_thread,
    TIMER_START_calls]

/-- After `TIMER_START; TIMER_SET`, a second `TIMER_SET` assigns the reduced
elapsed count between the second and the third reading. -/
theorem mark_measure_measure_result (e : Env) :
    (TIMER_SET (TIMER_SET (TIMER_START e))).result
      = wrap64 (spec_elapsed (cputime e.clocks e.thread (e.calls + 1))
          (cputime e.clocks e.thread (e.calls + 2))) := by
  rw [TIMER_SET_result, TIMER_SET_ts, TIMER_SET_clocks, TIMER_SET_thread, TIMER_SET_calls,
    TIMER_START_clocks, TIMER_START_thread, TIMER_START_calls]

/-- One more second of difference than `9223372035` can overflow: for
`old = (0, 0)` and `new = (9223372036, 999999999)` the exact count
`9223372036999999999` is not representable and `TIMER_SET` assigns
`-9223372036709551617`. -/
theorem TIMER_SET_wraps_past_bound :
    ¬ inRange64 (spec_elapsed ⟨0, 0⟩ ⟨9223372036, 999999999⟩) ∧
    (TIMER_SET ⟨⟨0, 0⟩, 0, 0, clocksOf [⟨9223372036, 999999999⟩] ⟨0, 0⟩, 0⟩).result
      = -9223372036709551617 := by
  refine ⟨by decide, by decide⟩

/-! ## Claims -/

/-- C1 (amended): for every stored timestamp `old` in the slot and every
reading `new = cputime clocks t k` of the calling thread's CPU-time clock,
`TIMER_SET` assigns to `result` the value
`(new.sec - old.sec) * 1000000000 + (new.nsec - old.nsec)` reduced modulo
`2 ^ 64`; it is exactly that value if and only if that value is representable
as a 64-bit signed integer. `old` is the slot's value from before the clock
read and `new` is the value the slot holds afterwards. -/
theorem C1_measure_elapsed (old : timespec) (res : Int) (t : Nat) (clocks : Clocks) (k : Nat) :
    (TIMER_SET ⟨old, res, t, clocks, k⟩).result
      = wrap64 (((cputime clocks t k).tv_sec - old.tv_sec) * 1000000000
          + ((cputime clocks t k).tv_nsec - old.tv_nsec)) ∧
    (inRange64 (((cputime clocks t k).tv_sec - old.tv_sec) * 1000000000
          + ((cputime clocks t k).tv_nsec - old.tv_nsec)) ↔
      (TIMER_SET ⟨old, res, t, clocks, k⟩).result
        = ((cputime clocks t k).tv_sec - old.tv_sec) * 1000000000
            + ((cputime clocks t k).tv_nsec - old.tv_nsec)) ∧
    (inRange64 (((cputime clocks t k).tv_sec - old.tv_sec) * 1000000000
          + ((cputime clocks t k).tv_nsec - old.tv_nsec)) →
      (TIMER_SET ⟨old, res, t, clocks, k⟩).result
        = ((TIMER_SET ⟨old, res, t, clocks, k⟩).ts.tv_sec - old.tv_sec) * 1000000000
            + ((TIMER_SET ⟨old, res, t, clocks, k⟩).ts.tv_nsec - old.tv_nsec)) := by
  have hw : (TIMER_SET ⟨old, res, t, clocks, k⟩).result
      = wrap64 (((cputime clocks t k).tv_sec - old.tv_sec) * 1000000000
          + ((cputime clocks t k).tv_nsec - old.tv_nsec)) :=
    TIMER_SET_result ⟨old, res, t, clocks, k⟩
  refine ⟨hw, ⟨?_, ?_⟩, ?_⟩
  · intro h
    rw [hw, wrap64_of_inRange64 _ h]
  · intro h
    rw [hw] at h
    exact inRange64_of_wrap64_eq _ h
  · intro h
    rw [hw, wrap64_of_inRange64 _ h]
    rfl

theorem C1_measure_elapsed_witness :
    inRange64 (((2 : Int) - 1) * 1000000000 + (5000000 - 995000000)) ∧
    (TIMER_SET ⟨⟨1, 995000000⟩, 0, 0, clocksOf [⟨2, 5000000⟩] ⟨0, 0⟩, 0⟩).result
      = ((2 : Int) - 1) * 1000000000 + (5000000 - 995000000) :=
  ⟨by decide,
    (C1_measure_elapsed ⟨1, 995000000⟩ 0 0 (clocksOf [⟨2, 5000000⟩] ⟨0, 0⟩) 0).2.1.1
      (by decide)⟩

/-- C1 as stated fails: with the slot at `(0, 0)` and the reading
`(9223372036, 999999999)` the exact value `9223372036999999999` exceeds
`2 ^ 63 - 1` and `TIMER_SET` assigns `-9223372036709551617`. -/
theorem C1_counterexample :
    (TIMER_SET ⟨⟨0, 0⟩, 0, 0, clocksOf [⟨9223372036, 999999999⟩] ⟨0, 0⟩, 0⟩).result
      = -9223372036709551617 ∧
    (TIMER_SET ⟨⟨0, 0⟩, 0, 0, clocksOf [⟨9223372036, 999999999⟩] ⟨0, 0⟩, 0⟩).result
      ≠ ((9223372036 : Int) - 0) * 1000000000 + (999999999 - 0) := by
  refine ⟨by decide, by decide⟩

/-- C2: for every prior slot value and every clock reading, after `TIMER_SET`
the slot holds exactly the new reading of the calling thread's CPU-time
clock, seconds and nanoseconds, whatever the sign of the computed elapsed
value and whatever the prior slot value. -/
theorem C2_measure_overwrites_slot (old : timespec) (res : Int) (t : Nat) (clocks : Clocks)
    (k : Nat) :
    (TIMER_SET ⟨old, res, t, clocks, k⟩).ts = cputime clocks t k ∧
    (TIMER_SET ⟨old, res, t, clocks, k⟩).ts.tv_sec = (cputime clocks t k).tv_sec ∧
    (TIMER_SET ⟨old, res, t, clocks, k⟩).ts.tv_nsec = (cputime clocks t k).tv_nsec ∧
    (TIMER_SET ⟨old, res, t, clocks, k⟩).ts = clocks clockid_t.CLOCK_THREAD_CPUTIME_ID t k := by
  exact ⟨rfl, rfl, rfl, rfl⟩

/-- C3: for every prior slot value `p` and every clock reading
`r = cputime clocks t k`, after `TIMER_START` the slot equals `r`; a run from
a different prior slot `q` with the same reading ends in the same slot; and
`TIMER_START` assigns no output: the lvalue `result` keeps its value. -/
theorem C3_mark_writes_reading (p q : timespec) (res : Int) (t : Nat) (clocks : Clocks)
    (k : Nat) :
    (TIMER_START ⟨p, res, t, clocks, k⟩).ts = cputime clocks t k ∧
    (TIMER_START ⟨p, res, t, clocks, k⟩).ts = (TIMER_START ⟨q, res, t, clocks, k⟩).ts ∧
    (TIMER_START ⟨p, res, t, clocks, k⟩).result = res := by
  exact ⟨rfl, rfl, rfl⟩

/-- C4 (amended): for every initial slot content `p` and every three
successive readings `r0`, `r1`, `r2` of the thread's CPU-time clock, the
sequence `TIMER_START; TIMER_SET -> d1; TIMER_SET -> d2` gives `d1` = the
delta from `r0` to `r1` when that delta is representable in 64 bits and
`d2` = the delta from `r1` to `r2` when that delta is representable, and
leaves the slot equal to `r2`; `d2` is the same for any other initial slot,
initial `result` and clocks that agree on `r1` and `r2` (whatever `r0`). -/
theorem C4_chained_measures (p q : timespec) (res res' : Int) (t : Nat)
    (clocks clocks2 : Clocks) (k : Nat) :
    (inRange64 (spec_elapsed (cputime clocks t k) (cputime clocks t (k + 1))) →
      (TIMER_SET (TIMER_START ⟨p, res, t, clocks, k⟩)).result
        = spec_elapsed (cputime clocks t k) (cputime clocks t (k + 1))) ∧
    (inRange64 (spec_elapsed (cputime clocks t (k + 1)) (cputime clocks t (k + 2))) →
      (TIMER_SET (TIMER_SET (TIMER_START ⟨p, res, t, clocks, k⟩))).result
        = spec_elapsed (cputime clocks t (k + 1)) (cputime clocks t (k + 2))) ∧
    (TIMER_SET (TIMER_SET (TIMER_START ⟨p, res, t, clocks, k⟩))).ts = cputime clocks t (k + 2) ∧
    (cputime clocks2 t (k + 1) = cputime clocks t (k + 1) →
      cputime clocks2 t (k + 2) = cputime clocks t (k + 2) →
      (TIMER_SET (TIMER_SET (TIMER_START ⟨q, res', t, clocks2, k⟩))).result
        = (TIMER_SET (TIMER_SET (TIMER_START ⟨p, res, t, clocks, k⟩))).result) := by
  refine ⟨?_, ?_, rfl, ?_⟩
  · intro h
    rw [mark_measure_result, wrap64_of_inRange64 _ h]
  · intro h
    rw [mark_measure_measure_result, wrap64_of_inRange64 _ h]
  · intro h1 h2
    rw [mark_measure_measure_result, mark_measure_measure_result]
    simp only [h1, h2]

theorem C4_chained_measures_witness :
    (inRange64 (spec_elapsed (cputime (clocksOf [⟨1, 5⟩, ⟨1, 900⟩, ⟨3, 20⟩] ⟨0, 0⟩) 0 0)
        (cputime (clocksOf [⟨1, 5⟩, ⟨1, 900⟩, ⟨3, 20⟩] ⟨0, 0⟩) 0 (0 + 1))) ∧
      (TIMER_SET (TIMER_START
        ⟨⟨7, 7⟩, 0, 0, clocksOf [⟨1, 5⟩, ⟨1, 900⟩, ⟨3, 20⟩] ⟨0, 0⟩, 0⟩)).result = 895) ∧
    (inRange64 (spec_elapsed (cputime (clocksOf [⟨1, 5⟩, ⟨1, 900⟩, ⟨3, 20⟩] ⟨0, 0⟩) 0 (0 + 1))
        (cputime (clocksOf [⟨1, 5⟩, ⟨1, 900⟩, ⟨3, 20⟩] ⟨0, 0⟩) 0 (0 + 2))) ∧
      (TIMER_SET (TIMER_SET (TIMER_START
        ⟨⟨7, 7⟩, 0, 0, clocksOf [⟨1, 5⟩, ⟨1, 900⟩, ⟨3, 20⟩] ⟨0, 0⟩, 0⟩))).result
        = 1999999120) ∧
    (TIMER_SET (TIMER_SET (TIMER_START
        ⟨⟨8, 8⟩, 4, 0, clocksOf [⟨9, 9⟩, ⟨1, 900⟩, ⟨3, 20⟩] ⟨0, 0⟩, 0⟩))).result
      = (TIMER_SET (TIMER_SET (TIMER_START
        ⟨⟨7, 7⟩, 0, 0, clocksOf [⟨1, 5⟩, ⟨1, 900⟩, ⟨3, 20⟩] ⟨0, 0⟩, 0⟩))).result :=
  have h := C4_chained_measures ⟨7, 7⟩ ⟨8, 8⟩ 0 4 0
    (clocksOf [⟨1, 5⟩, ⟨1, 900⟩, ⟨3, 20⟩] ⟨0, 0⟩)
    (clocksOf [⟨9, 9⟩, ⟨1, 900⟩, ⟨3, 20⟩] ⟨0, 0⟩) 0
  ⟨⟨by decide, (h.1 (by decide)).trans (by decide)⟩,
    ⟨by decide, (h.2.1 (by decide)).trans (by decide)⟩,
    h.2.2.2 (by decide) (by decide)⟩

/-- C4 as stated fails: with `r0 = (0, 0)` and `r1 = (9223372036, 999999999)`
the first measurement is not the delta from `r0` to `r1`. -/
theorem C4_counterexample :
    (TIMER_SET (TIMER_START
      ⟨⟨5, 5⟩, 0, 0, clocksOf [⟨0, 0⟩, ⟨9223372036, 999999999⟩, ⟨9223372037, 0⟩] ⟨0, 0⟩,
        0⟩)).result
      ≠ spec_elapsed ⟨0, 0⟩ ⟨9223372036, 999999999⟩ := by
  decide

/-- C5 (amended): for normalised timestamps whose exact elapsed count is
representable in 64 bits (in particular when the seconds differ by at most
`9223372035`), the value `TIMER_SET` assigns is negative exactly when the new
reading is strictly earlier than the stored one in `(seconds, nanoseconds)`
lexicographic order; hence `TIMER_START; TIMER_SET` with a clock that does
not go backwards reports a value `≥ 0` under the same condition, and reports
exactly `0` when the two readings are equal. -/
theorem C5_sign_of_elapsed (old p : timespec) (res : Int) (t : Nat) (clocks : Clocks) (k : Nat)
    (hold : normalised old) (h0 : normalised (cputime clocks t k))
    (h1 : normalised (cputime clocks t (k + 1))) :
    (inRange64 (spec_elapsed old (cputime clocks t k)) →
      ((TIMER_SET ⟨old, res, t, clocks, k⟩).result < 0 ↔ earlier (cputime clocks t k) old)) ∧
    (inRange64 (spec_elapsed (cputime clocks t k) (cputime clocks t (k + 1))) →
      ¬ earlier (cputime clocks t (k + 1)) (cputime clocks t k) →
      0 ≤ (TIMER_SET (TIMER_START ⟨p, res, t, clocks, k⟩)).result) ∧
    (cputime clocks t (k + 1) = cputime clocks t k →
      (TIMER_SET (TIMER_START ⟨p, res, t, clocks, k⟩)).result = 0) := by
  refine ⟨?_, ?_, ?_⟩
  · intro hr
    have hres : (TIMER_SET ⟨old, res, t, clocks, k⟩).result
        = spec_elapsed old (cputime clocks t k) :=
      TIMER_SET_result_exact ⟨old, res, t, clocks, k⟩ hr
    rw [earlier_iff_ns_lt _ _ h0 hold, hres, spec_elapsed_eq_ns]
    constructor <;> intro h <;> linarith
  · intro hr h
    rw [earlier_iff_ns_lt _ _ h1 h0] at h
    rw [mark_measure_result, wrap64_of_inRange64 _ hr, spec_elapsed_eq_ns]
    linarith
  · intro h
    rw [mark_measure_result]
    show wrap64 (spec_elapsed (cputime clocks t k) (cputime clocks t (k + 1))) = 0
    rw [h]
    have hz : spec_elapsed (cputime clocks t k) (cputime clocks t k) = 0 := by
      unfold spec_elapsed
      ring
    rw [hz]
    decide

theorem C5_sign_of_elapsed_witness :
    (normalised ⟨3, 200⟩ ∧
      normalised (cputime (clocksOf [⟨3, 100⟩, ⟨4, 50⟩] ⟨0, 0⟩) 0 0) ∧
      normalised (cputime (clocksOf [⟨3, 100⟩, ⟨4, 50⟩] ⟨0, 0⟩) 0 (0 + 1))) ∧
    (inRange64 (spec_elapsed ⟨3, 200⟩ (cputime (clocksOf [⟨3, 100⟩, ⟨4, 50⟩] ⟨0, 0⟩) 0 0)) ∧
      (TIMER_SET ⟨⟨3, 200⟩, 0, 0, clocksOf [⟨3, 100⟩, ⟨4, 50⟩] ⟨0, 0⟩, 0⟩).result < 0) ∧
    0 ≤ (TIMER_SET (TIMER_START
      ⟨⟨7, 7⟩, 0, 0, clocksOf [⟨3, 100⟩, ⟨4, 50⟩] ⟨0, 0⟩, 0⟩)).result :=
  have h := C5_sign_of_elapsed ⟨3, 200⟩ ⟨7, 7⟩ 0 0 (clocksOf [⟨3, 100⟩, ⟨4, 50⟩] ⟨0, 0⟩) 0
    (by decide) (by decide) (by decide)
  ⟨⟨by decide, by decide, by decide⟩, ⟨by decide, (h.1 (by decide)).2 (by decide)⟩,
    h.2.1 (by decide) (by decide)⟩

/-- C5 as stated fails: `(0, 0)` and `(9223372036, 999999999)` are normalised and
the new reading is the later one, yet `TIMER_SET` assigns a negative value,
also right after `TIMER_START` with a clock that did not go backwards. -/
theorem C5_counterexample :
    normalised ⟨0, 0⟩ ∧ normalised ⟨9223372036, 999999999⟩ ∧
    ¬ earlier ⟨9223372036, 999999999⟩ ⟨0, 0⟩ ∧
    (TIMER_SET ⟨⟨0, 0⟩, 0, 0, clocksOf [⟨9223372036, 999999999⟩] ⟨0, 0⟩, 0⟩).result < 0 ∧
    (TIMER_SET (TIMER_START
      ⟨⟨5, 5⟩, 0, 0, clocksOf [⟨0, 0⟩, ⟨9223372036, 999999999⟩] ⟨0, 0⟩, 0⟩)).result < 0 := by
  refine ⟨by decide, by decide, by decide, by decide, by decide⟩

/-- C6 (amended): with `ns t = t.sec * 1000000000 + t.nsec`, for all
timestamps `old` and `new` (normalised or not) the value `TIMER_SET` assigns
is `ns new - ns old` reduced modulo `2 ^ 64`, and equals `ns new - ns old`
whenever that difference is representable in 64 bits; for
`old = (1, 995000000)` and `new = (2, 5000000)`, an interval that crosses a
second boundary with `new.nsec < old.nsec`, it is `10000000`, which lies
between `9000000` and `15000000`. -/
theorem C6_elapsed_is_ns_difference (old : timespec) (res : Int) (t : Nat) (clocks : Clocks)
    (k : Nat) :
    (TIMER_SET ⟨old, res, t, clocks, k⟩).result = wrap64 (ns (cputime clocks t k) - ns old) ∧
    (inRange64 (ns (cputime clocks t k) - ns old) →
      (TIMER_SET ⟨old, res, t, clocks, k⟩).result = ns (cputime clocks t k) - ns old) ∧
    (TIMER_SET ⟨⟨1, 995000000⟩, res, t, fun _ _ _ => ⟨2, 5000000⟩, k⟩).result = 10000000 ∧
    9000000 ≤ (TIMER_SET ⟨⟨1, 995000000⟩, res, t, fun _ _ _ => ⟨2, 5000000⟩, k⟩).result ∧
    (TIMER_SET ⟨⟨1, 995000000⟩, res, t, fun _ _ _ => ⟨2, 5000000⟩, k⟩).result ≤ 15000000 := by
  have hw : (TIMER_SET ⟨old, res, t, clocks, k⟩).result
      = wrap64 (ns (cputime clocks t k) - ns old) := by
    rw [TIMER_SET_result, spec_elapsed_eq_ns]
  have h : (TIMER_SET ⟨⟨1, 995000000⟩, res, t, fun _ _ _ => ⟨2, 5000000⟩, k⟩).result
      = 10000000 := by
    rw [TIMER_SET_result]
    show wrap64 (spec_elapsed ⟨1, 995000000⟩ ⟨2, 5000000⟩) = 10000000
    decide
  refine ⟨hw, ?_, h, ?_, ?_⟩
  · intro hr
    rw [hw, wrap64_of_inRange64 _ hr]
  · rw [h]; norm_num
  · rw [h]; norm_num

theorem C6_elapsed_is_ns_difference_witness :
    inRange64 (ns (cputime (clocksOf [⟨2, 5000000⟩] ⟨0, 0⟩) 0 0) - ns ⟨1, 995000000⟩) ∧
    (TIMER_SET ⟨⟨1, 995000000⟩, 0, 0, clocksOf [⟨2, 5000000⟩] ⟨0, 0⟩, 0⟩).result
      = ns (cputime (clocksOf [⟨2, 5000000⟩] ⟨0, 0⟩) 0 0) - ns ⟨1, 995000000⟩ :=
  ⟨by decide,
    (C6_elapsed_is_ns_difference ⟨1, 995000000⟩ 0 0 (clocksOf [⟨2, 5000000⟩] ⟨0, 0⟩) 0).2.1
      (by decide)⟩

/-- C6 as stated fails: at `old = (0, 0)`, `new = (9223372036, 999999999)` the
value `TIMER_SET` assigns is not `ns new - ns old`. -/
theorem C6_counterexample :
    (TIMER_SET ⟨⟨0, 0⟩, 0, 0, clocksOf [⟨9223372036, 999999999⟩] ⟨0, 0⟩, 0⟩).result
      ≠ ns ⟨9223372036, 999999999⟩ - ns ⟨0, 0⟩ := by
  decide

/-- C7 (amended): for every duration `D`, if the thread's CPU clock advanced
by at least `D` nanoseconds between the reading written by `TIMER_START` and
the reading taken by the following `TIMER_SET` (`ns r1 - ns r0 ≥ D`) and that
advance is representable in 64 bits, the reported value is `≥ D`; and for a
fixed stored timestamp the reported value is monotonically non-decreasing in
the new reading (ordered by nanosecond count or, for normalised readings,
lexicographically) among the readings whose elapsed count from the stored
timestamp is representable. -/
theorem C7_elapsed_monotone (D : Int) (p old : timespec) (res : Int) (t : Nat)
    (clocks clocks2 : Clocks) (k : Nat) :
    (inRange64 (ns (cputime clocks t (k + 1)) - ns (cputime clocks t k)) →
      ns (cputime clocks t (k + 1)) - ns (cputime clocks t k) ≥ D →
      (TIMER_SET (TIMER_START ⟨p, res, t, clocks, k⟩)).result ≥ D) ∧
    (inRange64 (spec_elapsed old (cputime clocks t k)) →
      inRange64 (spec_elapsed old (cputime clocks2 t k)) →
      ns (cputime clocks t k) ≤ ns (cputime clocks2 t k) →
      (TIMER_SET ⟨old, res, t, clocks, k⟩).result
        ≤ (TIMER_SET ⟨old, res, t, clocks2, k⟩).result) ∧
    (inRange64 (spec_elapsed old (cputime clocks t k)) →
      inRange64 (spec_elapsed old (cputime clocks2 t k)) →
      normalised (cputime clocks t k) → normalised (cputime clocks2 t k) →
      ¬ earlier (cputime clocks2 t k) (cputime clocks t k) →
      (TIMER_SET ⟨old, res, t, clocks, k⟩).result
        ≤ (TIMER_SET ⟨old, res, t, clocks2, k⟩).result) := by
  have hmono : inRange64 (spec_elapsed old (cputime clocks t k)) →
      inRange64 (spec_elapsed old (cputime clocks2 t k)) →
      ns (cputime clocks t k) ≤ ns (cputime clocks2 t k) →
      (TIMER_SET ⟨old, res, t, clocks, k⟩).result
        ≤ (TIMER_SET ⟨old, res, t, clocks2, k⟩).result := by
    intro hr1 hr2 h
    rw [TIMER_SET_result_exact ⟨old, res, t, clocks, k⟩ hr1,
      TIMER_SET_result_exact ⟨old, res, t, clocks2, k⟩ hr2,
      spec_elapsed_eq_ns, spec_elapsed_eq_ns]
    simp only
    linarith
  refine ⟨?_, hmono, ?_⟩
  · intro hr h
    rw [mark_measure_result, spec_elapsed_eq_ns]
    simp only
    rw [wrap64_of_inRange64 _ hr]
    exact h
  · intro hr1 hr2 hn1 hn2 h
    rw [earlier_iff_ns_lt _ _ hn2 hn1] at h
    exact hmono hr1 hr2 (by linarith)

theorem C7_elapsed_monotone_witness :
    (ns (cputime (clocksOf [⟨1, 995000000⟩, ⟨2, 5000000⟩] ⟨0, 0⟩) 0 (0 + 1))
        - ns (cputime (clocksOf [⟨1, 995000000⟩, ⟨2, 5000000⟩] ⟨0, 0⟩) 0 0) ≥ 10000000 ∧
      (TIMER_SET (TIMER_START
        ⟨⟨7, 7⟩, 0, 0, clocksOf [⟨1, 995000000⟩, ⟨2, 5000000⟩] ⟨0, 0⟩, 0⟩)).result
        ≥ 10000000) ∧
    (ns (cputime (clocksOf [⟨1, 995000000⟩, ⟨2, 5000000⟩] ⟨0, 0⟩) 0 0)
        ≤ ns (cputime (clocksOf [⟨2, 0⟩] ⟨0, 0⟩) 0 0) ∧
      (TIMER_SET ⟨⟨1, 0⟩, 0, 0, clocksOf [⟨1, 995000000⟩, ⟨2, 5000000⟩] ⟨0, 0⟩, 0⟩).result
        ≤ (TIMER_SET ⟨⟨1, 0⟩, 0, 0, clocksOf [⟨2, 0⟩] ⟨0, 0⟩, 0⟩).result) ∧
    (¬ earlier (cputime (clocksOf [⟨2, 0⟩] ⟨0, 0⟩) 0 0)
          (cputime (clocksOf [⟨1, 995000000⟩, ⟨2, 5000000⟩] ⟨0, 0⟩) 0 0) ∧
      (TIMER_SET ⟨⟨1, 0⟩, 0, 0, clocksOf [⟨1, 995000000⟩, ⟨2, 5000000⟩] ⟨0, 0⟩, 0⟩).result
        ≤ (TIMER_SET ⟨⟨1, 0⟩, 0, 0, clocksOf [⟨2, 0⟩] ⟨0, 0⟩, 0⟩).result) :=
  have h := C7_elapsed_monotone 10000000 ⟨7, 7⟩ ⟨1, 0⟩ 0 0
    (clocksOf [⟨1, 995000000⟩, ⟨2, 5000000⟩] ⟨0, 0⟩) (clocksOf [⟨2, 0⟩] ⟨0, 0⟩) 0
  ⟨⟨by decide, h.1 (by decide) (by decide)⟩,
    ⟨by decide, h.2.1 (by decide) (by decide) (by decide)⟩,
    by decide, h.2.2 (by decide) (by decide) (by decide) (by decide) (by decide)⟩

/-- C7 as stated fails: after `TIMER_START` at `(0, 0)` the clock advanced by
`9223372036999999999 ≥ 1` nanoseconds and the reported value is below `1`;
and with the slot at `(0, 0)` the later reading `(9223372036, 999999999)`
yields less than the earlier reading `(9223372036, 854775807)`. -/
theorem C7_counterexample :
    (ns (cputime (clocksOf [⟨0, 0⟩, ⟨9223372036, 999999999⟩] ⟨0, 0⟩) 0 (0 + 1))
        - ns (cputime (clocksOf [⟨0, 0⟩, ⟨9223372036, 999999999⟩] ⟨0, 0⟩) 0 0) ≥ 1 ∧
      ¬ (TIMER_SET (TIMER_START
        ⟨⟨5, 5⟩, 0, 0, clocksOf [⟨0, 0⟩, ⟨9223372036, 999999999⟩] ⟨0, 0⟩, 0⟩)).result ≥ 1) ∧
    (ns ⟨9223372036, 854775807⟩ ≤ ns ⟨9223372036, 999999999⟩ ∧
      (TIMER_SET ⟨⟨0, 0⟩, 0, 0, clocksOf [⟨9223372036, 854775807⟩] ⟨0, 0⟩, 0⟩).result
        = 9223372036854775807 ∧
      (TIMER_SET ⟨⟨0, 0⟩, 0, 0, clocksOf [⟨9223372036, 999999999⟩] ⟨0, 0⟩, 0⟩).result
        = -9223372036709551617 ∧
      ¬ (TIMER_SET ⟨⟨0, 0⟩, 0, 0, clocksOf [⟨9223372036, 854775807⟩] ⟨0, 0⟩, 0⟩).result
        ≤ (TIMER_SET ⟨⟨0, 0⟩, 0, 0, clocksOf [⟨9223372036, 999999999⟩] ⟨0, 0⟩, 0⟩).result) := by
  refine ⟨⟨by decide, by decide⟩, by decide, by decide, by decide, by decide⟩

/-- C9 (amended): telescoping. For every `n` and every sequence of readings
`r0 = cputime clocks t k, ..., rn = cputime clocks t (k+n)`, `TIMER_START`
followed by `n` expansions of `TIMER_SET` yields `n` values and leaves the
slot equal to `rn`; their sum equals
`(rn.sec - r0.sec) * 1000000000 + (rn.nsec - r0.nsec)` modulo `2 ^ 64`, and
equals it exactly when each delta from `r i` to `r (i+1)` is representable
in 64 bits. -/
theorem C9_telescoping (n : Nat) (p : timespec) (res : Int) (t : Nat) (clocks : Clocks)
    (k : Nat) :
    (measures n (TIMER_START ⟨p, res, t, clocks, k⟩)).2.length = n ∧
    (measures n (TIMER_START ⟨p, res, t, clocks, k⟩)).1.ts = cputime clocks t (k + n) ∧
    wrap64 (measures n (TIMER_START ⟨p, res, t, clocks, k⟩)).2.sum
      = wrap64 (((cputime clocks t (k + n)).tv_sec - (cputime clocks t k).tv_sec) * 1000000000
          + ((cputime clocks t (k + n)).tv_nsec - (cputime clocks t k).tv_nsec)) ∧
    ((∀ i, i < n →
        inRange64 (spec_elapsed (cputime clocks t (k + i)) (cputime clocks t (k + i + 1)))) →
      (measures n (TIMER_START ⟨p, res, t, clocks, k⟩)).2.sum
        = ((cputime clocks t (k + n)).tv_sec - (cputime clocks t k).tv_sec) * 1000000000
            + ((cputime clocks t (k + n)).tv_nsec - (cputime clocks t k).tv_nsec)) := by
  have hts : (measures n (TIMER_START ⟨p, res, t, clocks, k⟩)).1.ts
      = cputime clocks t (k + n) := by
    cases n with
    | zero => rfl
    | succ m =>
      rw [(measures_spec m (TIMER_START ⟨p, res, t, clocks, k⟩)).2.2.2.2, TIMER_START_clocks,
        TIMER_START_calls, TIMER_START_thread]
      show cputime clocks t (k + 1 + m) = cputime clocks t (k + (m + 1))
      congr 1
      omega
  refine ⟨(measures_spec n (TIMER_START ⟨p, res, t, clocks, k⟩)).2.2.2.1, hts, ?_, ?_⟩
  · rw [measures_sum_wrap, hts, TIMER_START_ts]
    rfl
  · intro h
    have hsum := measures_sum_exact n (TIMER_START ⟨p, res, t, clocks, k⟩)
      (by
        intro hn
        have h0 := h 0 (by omega)
        exact h0)
      (by
        intro i hi
        have h1 := h (i + 1) (by omega)
        rw [TIMER_START_clocks, TIMER_START_calls, TIMER_START_thread]
        have e1 : k + (i + 1) = k + 1 + i := by omega
        rw [e1] at h1
        exact h1)
    rw [hsum, hts, TIMER_START_ts]
    rfl

theorem C9_telescoping_witness :
    (∀ i, i < 2 →
      inRange64 (spec_elapsed (cputime (clocksOf [⟨1, 5⟩, ⟨1, 900⟩, ⟨3, 20⟩] ⟨0, 0⟩) 0 (0 + i))
        (cputime (clocksOf [⟨1, 5⟩, ⟨1, 900⟩, ⟨3, 20⟩] ⟨0, 0⟩) 0 (0 + i + 1)))) ∧
    (measures 2 (TIMER_START
      ⟨⟨7, 7⟩, 0, 0, clocksOf [⟨1, 5⟩, ⟨1, 900⟩, ⟨3, 20⟩] ⟨0, 0⟩, 0⟩)).2 = [895, 1999999120] ∧
    (measures 2 (TIMER_START
      ⟨⟨7, 7⟩, 0, 0, clocksOf [⟨1, 5⟩, ⟨1, 900⟩, ⟨3, 20⟩] ⟨0, 0⟩, 0⟩)).2.sum = 2000000015 :=
  have hr : ∀ i, i < 2 →
      inRange64 (spec_elapsed (cputime (clocksOf [⟨1, 5⟩, ⟨1, 900⟩, ⟨3, 20⟩] ⟨0, 0⟩) 0 (0 + i))
        (cputime (clocksOf [⟨1, 5⟩, ⟨1, 900⟩, ⟨3, 20⟩] ⟨0, 0⟩) 0 (0 + i + 1))) := by
    intro i hi
    interval_cases i <;> decide
  ⟨hr, by decide,
    ((C9_telescoping 2 ⟨7, 7⟩ 0 0 (clocksOf [⟨1, 5⟩, ⟨1, 900⟩, ⟨3, 20⟩] ⟨0, 0⟩) 0).2.2.2
      hr).trans (by decide)⟩

/-- C9 as stated fails: with `r0 = (0, 0)`, `r1 = (9223372036, 999999999)`,
`r2 = (1, 0)` the two chained measurements are `-9223372036709551617` and
`-9223372035999999999`, whose sum is not the delta `1000000000` from `r0` to
`r2`. -/
theorem C9_counterexample :
    (measures 2 (TIMER_START
      ⟨⟨5, 5⟩, 0, 0, clocksOf [⟨0, 0⟩, ⟨9223372036, 999999999⟩, ⟨1, 0⟩] ⟨0, 0⟩, 0⟩)).2
      = [-9223372036709551617, -9223372035999999999] ∧
    (measures 2 (TIMER_START
      ⟨⟨5, 5⟩, 0, 0, clocksOf [⟨0, 0⟩, ⟨9223372036, 999999999⟩, ⟨1, 0⟩] ⟨0, 0⟩, 0⟩)).2.sum
      ≠ ((1 : Int) - 0) * 1000000000 + (0 - 0) := by
  refine ⟨by decide, by decide⟩

/-- C10: with `tv_sec`, `tv_nsec` and `result` 64-bit signed and arithmetic
modulo `2 ^ 64`, for normalised timestamps whose seconds differ by at most
`9223372035` in absolute value, the subtractions, the multiplication by
`1000000000` and the addition of `TIMER_SET` all stay representable, and the
wrapped result equals the exact elapsed nanosecond count. -/
theorem C10_no_overflow_64 (old : timespec) (res : Int) (t : Nat) (clocks : Clocks) (k : Nat)
    (hold : normalised old) (hnew : normalised (cputime clocks t k))
    (hd : |(cputime clocks t k).tv_sec - old.tv_sec| ≤ 9223372035) :
    inRange64 ((cputime clocks t k).tv_sec - old.tv_sec) ∧
    inRange64 ((cputime clocks t k).tv_nsec - old.tv_nsec) ∧
    inRange64 (((cputime clocks t k).tv_sec - old.tv_sec) * 1000000000) ∧
    inRange64 (((cputime clocks t k).tv_sec - old.tv_sec) * 1000000000
      + ((cputime clocks t k).tv_nsec - old.tv_nsec)) ∧
    (TIMER_SET ⟨old, res, t, clocks, k⟩).result
      = ((cputime clocks t k).tv_sec - old.tv_sec) * 1000000000
          + ((cputime clocks t k).tv_nsec - old.tv_nsec) ∧
    (TIMER_SET ⟨old, res, t, clocks, k⟩).result = spec_elapsed old (cputime clocks t k) := by
  unfold normalised at hold hnew
  rw [abs_le] at hd
  obtain ⟨hd1, hd2⟩ := hd
  have r1 : inRange64 ((cputime clocks t k).tv_sec - old.tv_sec) := by
    unfold inRange64; constructor <;> omega
  have r2 : inRange64 ((cputime clocks t k).tv_nsec - old.tv_nsec) := by
    unfold inRange64; constructor <;> omega
  have r3 : inRange64 (((cputime clocks t k).tv_sec - old.tv_sec) * 1000000000) := by
    unfold inRange64; constructor <;> omega
  have r4 : inRange64 (((cputime clocks t k).tv_sec - old.tv_sec) * 1000000000
      + ((cputime clocks t k).tv_nsec - old.tv_nsec)) := by
    unfold inRange64; constructor <;> omega
  have hres : (TIMER_SET ⟨old, res, t, clocks, k⟩).result
      = ((cputime clocks t k).tv_sec - old.tv_sec) * 1000000000
          + ((cputime clocks t k).tv_nsec - old.tv_nsec) := by
    show wrap64 (wrap64 (wrap64 ((cputime clocks t k).tv_sec - old.tv_sec) * 1000000000)
        + wrap64 ((cputime clocks t k).tv_nsec - old.tv_nsec)) = _
    rw [wrap64_of_inRange64 _ r1, wrap64_of_inRange64 _ r2, wrap64_of_inRange64 _ r3,
      wrap64_of_inRange64 _ r4]
  exact ⟨r1, r2, r3, r4, hres, hres⟩

theorem C10_no_overflow_64_witness :
    (normalised ⟨0, 999999999⟩ ∧ normalised ⟨9223372035, 0⟩ ∧
      |(9223372035 : Int) - 0| ≤ 9223372035) ∧
    (TIMER_SET ⟨⟨0, 999999999⟩, 0, 0, fun _ _ _ => ⟨9223372035, 0⟩, 0⟩).result
      = ((9223372035 : Int) - 0) * 1000000000 + (0 - 999999999) :=
  have h := C10_no_overflow_64 ⟨0, 999999999⟩ 0 0 (fun _ _ _ => ⟨9223372035, 0⟩) 0
    (by decide) (by decide) (by decide)
  ⟨⟨by decide, by decide, by decide⟩, h.2.2.2.2.1⟩

end Perf
